import Mathlib

/-!
Shallow embedding of the frame-driven synchronization core of the `golden`
word-puzzle front end, together with proofs of its specified properties.

Sources embedded (TypeScript/Svelte):
  * `src/lib/core/state/userEvents.svelte.ts` — input event buffer
    (click queue, last-write-wins hover).
  * `src/lib/core/state/triplets.svelte.ts`   — triplets slice
    (`next`, `future`, `updateIndex`, …).
  * `src/lib/core/state/letterTable.svelte.ts` — letter resolution
    (`getLetter`, `getWord`).
  * `src/lib/core/grid.ts`                     — `transformToGrid`.
  * the game-state module (`createGameState` / `tick`) — the frame driver.

Svelte's ambient `getContext`/`setContext` wiring and `$state` mutable cells
are modelled by explicit state passing: every stateful module becomes a
structure and its mutating methods become functions from state to state.
JavaScript numbers standing for times, scores and letter codes are modelled
as `Int` (all arithmetic in the embedded code is integral); array indices
are `Nat`.  A JavaScript out-of-bounds array read yields `undefined`, which
is modelled by `Option`.
-/

namespace Golden

/-- Position: integer pair used as a grid address and as the payload of
click/hover events (wasm `Position` collaborator type, modelled from the
spec's data model). -/
structure Position where
  x : Int
  y : Int
deriving DecidableEq

/-- Pathing status of a cell (wasm enum, modelled from the spec's data
model: `enum{None, Path, Blocked}`). -/
inductive PathingStatus where
  | none
  | path
  | blocked
deriving DecidableEq

/-- Cell record produced by the simulation engine (wasm `Cell` collaborator
type, modelled from the spec's data model: position, letter code with an
empty sentinel, pathing status). -/
structure WasmCell where
  position : Position
  letterCode : Int
  pathingStatus : PathingStatus
deriving DecidableEq

/-- Found word handed back by the engine (wasm `FoundWord` collaborator
type, modelled from the spec's data model: letter codes plus score). -/
structure FoundWord where
  letters : List Int
  score : Int
deriving DecidableEq

/-! ## Input event buffer — `userEvents.svelte.ts`

`createUserEventsState` closes over two `$state` cells, `userClicks` and
`lastHovered`; the structure below is that closure's state. -/

/-- State of `createUserEventsState`: the `userClicks` queue and the
`lastHovered` cell (`Position | null` becomes `Option Position`). -/
structure UserEventsState where
  userClicks : List Position
  lastHovered : Option Position
deriving DecidableEq

/-- Initial state of `createUserEventsState`: `userClicks = []`,
`lastHovered = null`. -/
def createUserEventsState : UserEventsState :=
  { userClicks := [], lastHovered := none }

/-- `click(position)`: `userClicks = [...userClicks, position]`. -/
def UserEventsState.click (s : UserEventsState) (position : Position) :
    UserEventsState :=
  { s with userClicks := s.userClicks ++ [position] }

/-- `hover(position)`: `lastHovered = position`. -/
def UserEventsState.hover (s : UserEventsState) (position : Position) :
    UserEventsState :=
  { s with lastHovered := some position }

/-- `extractUserClicks()`: returns the current queue and resets it to `[]`.
The returned pair is (value returned, state afterwards). -/
def UserEventsState.extractUserClicks (s : UserEventsState) :
    List Position × UserEventsState :=
  (s.userClicks, { s with userClicks := [] })

/-- One operation on the user-events module, as invoked by input handlers
and the frame driver between two points in time. -/
inductive UserEvent where
  | click (p : Position)
  | hover (p : Position)
  | extract
deriving DecidableEq

/-- Apply one operation to the user-events state (the `extract` case
discards the returned list and keeps the post-drain state). -/
def UserEventsState.apply (s : UserEventsState) : UserEvent → UserEventsState
  | .click p => s.click p
  | .hover p => s.hover p
  | .extract => (s.extractUserClicks).2

/-- Run a sequence of operations from a starting state. -/
def UserEventsState.run (s : UserEventsState) (ops : List UserEvent) :
    UserEventsState :=
  ops.foldl UserEventsState.apply s

/-! ## Triplets slice — `triplets.svelte.ts` -/

/-- `Triplet`: ordered group of exactly three letter codes. -/
structure Triplet where
  letter1 : Int
  letter2 : Int
  letter3 : Int
deriving DecidableEq

/-- State of `createTripletsState`: the triplet sequence fixed at session
start and the mutable `currentIndex` (`$state(0)` initially). -/
structure TripletsState where
  triplets : List Triplet
  currentIndex : Nat
deriving DecidableEq

/-- Getter `next`: `triplets[currentIndex]` — a JavaScript array read,
which yields `undefined` (here `none`) when the index is out of bounds. -/
def TripletsState.next (s : TripletsState) : Option Triplet :=
  s.triplets[s.currentIndex]?

/-- Getter `future`: `triplets.slice(currentIndex + 1)`. -/
def TripletsState.future (s : TripletsState) : List Triplet :=
  s.triplets.drop (s.currentIndex + 1)

/-- Getter `numberOfRemainingLetters`:
`(triplets.length - currentIndex) * 3` (truncated subtraction matches the
source only while `currentIndex ≤ triplets.length`; claims use it there). -/
def TripletsState.numberOfRemainingLetters (s : TripletsState) : Nat :=
  (s.triplets.length - s.currentIndex) * 3

/-- Getter `total`: `triplets.length`. -/
def TripletsState.total (s : TripletsState) : Nat :=
  s.triplets.length

/-- `updateIndex(newIndex)`: `currentIndex = newIndex`, with no bounds
check of any kind. -/
def TripletsState.updateIndex (s : TripletsState) (newIndex : Nat) :
    TripletsState :=
  { s with currentIndex := newIndex }

/-! ## Letter resolution — `letterTable.svelte.ts`

`initLettersTableContext` stores two closures over the wasm
`LettersTable`; `getLetter` reads them back through the Svelte context.
The context is modelled as an explicit argument.  The wasm table itself is
not part of this repository; per the spec's collaborator contract its
accessors return `char|none` and `integer|none`. -/

/-- Modelled from the spec: the wasm `LettersTable` collaborator, which is
not in the repository source.  Per the spec's external-interface contract
it exposes `tryGetChar(code) -> char|none` and
`tryGetScore(code) -> integer|none` (the `try_get_letter_char` /
`try_get_letter_score` bindings). -/
structure LettersTableContext where
  getLetter : Int → Option Char
  getScore : Int → Option Int

/-- Resolved display letter.  The TypeScript declares `char: string` and
`score: number`, but the values stored are whatever the table's try-get
accessors return, which per the collaborator contract may be absent; so
both fields are `Option`. -/
structure Letter where
  index : Int
  char : Option Char
  score : Option Int
deriving DecidableEq

/-- `getLetter(index)`: returns `null` when `is_empty_cell(index)`,
otherwise builds `{ index, char: context.getLetter(index),
score: context.getScore(index) }` with no check that the table had an
entry.  `is_empty_cell` is the wasm sentinel test, a pure function of the
code, passed here as a parameter. -/
def getLetter (ctx : LettersTableContext) (is_empty_cell : Int → Bool)
    (index : Int) : Option Letter :=
  if is_empty_cell index then
    none
  else
    some { index := index, char := ctx.getLetter index,
           score := ctx.getScore index }

/-- `getWord(letters)`: maps `getLetter` over the codes and throws
`Error("Invalid letter index in word: " + index)` at the first code whose
resolution is `null`; the throw is modelled by `Except.error`. -/
def getWord (ctx : LettersTableContext) (is_empty_cell : Int → Bool) :
    List Int → Except String (List Letter)
  | [] => .ok []
  | index :: rest =>
    match getLetter ctx is_empty_cell index with
    | none => .error ("Invalid letter index in word: " ++ toString index)
    | some letter =>
      match getWord ctx is_empty_cell rest with
      | .error e => .error e
      | .ok ls => .ok (letter :: ls)

/-! ## Grid reconstruction — `grid.ts`

`Grid` in the source is `{ [x: number]: { [y: number]: WasmCell } }`: an
object keyed by x whose entries are objects keyed by y.  A JavaScript
object is modelled as a total function returning `Option` (`none` for an
absent key); `!cells[x]` is true exactly when the x-entry is absent, since
a present entry is an object and objects are truthy. -/

/-- Inner row of a grid: `{ [y: number]: WasmCell }`. -/
def GridRow := Int → Option WasmCell

/-- `Grid`: `{ [x: number]: { [y: number]: WasmCell } }`. -/
def Grid := Int → Option GridRow

/-- One step of the `reduce` in `transformToGrid`: create the x-level
container if absent, then set `cells[x][y] = rawCell`. -/
def insertCell (cells : Grid) (rawCell : WasmCell) : Grid :=
  let x := rawCell.position.x
  let y := rawCell.position.y
  let row : GridRow :=
    match cells x with
    | none => fun _ => none
    | some r => r
  fun a =>
    if a = x then some (fun b => if b = y then some rawCell else row b)
    else cells a

/-- `transformToGrid(raw)`: `raw.reduce(..., {})` inserting every cell
record at its own position. -/
def transformToGrid (raw : List WasmCell) : Grid :=
  raw.foldl insertCell (fun _ => none)

/-- Read `grid[x][y]` (absent at either level yields `undefined`). -/
def gridGet (g : Grid) (x y : Int) : Option WasmCell :=
  match g x with
  | none => none
  | some row => row y

/-! ## Frame driver — `createGameState` / `tick`

`createGameState` closes over the state slices (clock, grid, score,
triplets, found words), the user-events state and `lastFrame`; `tick(now)`
is the per-frame body.  The closure's mutable state: -/

/-- State closed over by `tick`: `lastFrame` plus the user-events buffer
and the five state slices written during snapshot decomposition.  The
clock, score and found-words slices are plain replace-value containers, so
they are carried as their held values. -/
structure DriverState where
  lastFrame : Int
  userEvents : UserEventsState
  clock : Int
  grid : Grid
  score : Int
  triplets : TripletsState
  foundWords : List FoundWord

/-- Modelled from the spec: the snapshot surface the driver reads after
one engine step.  The wasm `Game.tick` and the post-tick accessors
`wasmGame.score` and `wasmGame.triplets_current_index` are not in the
repository source; the two accessor values are bundled into this record
alongside the snapshot fields `clock_remaining_ms`, `grid()` and
`found_words()`. -/
structure Snapshot where
  clock_remaining_ms : Int
  grid : List WasmCell
  found_words : List FoundWord
  score : Int
  triplets_current_index : Nat

/-- Result of one `tick(now)` invocation: the state afterwards, the delta
and inputs passed to the engine, whether `requestAnimationFrame(tick)` was
reached, and the error propagated to the caller if the engine threw. -/
structure TickResult (ε : Type) where
  state : DriverState
  delta : Int
  clicksSent : List Position
  hoverSent : Option Position
  scheduledNextFrame : Bool
  error : Option ε

/-- `tick(now)`: if `lastFrame === 0` set `lastFrame = now`; compute
`delta = now - lastFrame`; set `lastFrame = now`; call
`wasmGame.tick(delta, userEvents.extractUserClicks(),
userEvents.lastHovered)`; on success update the five slices from the
snapshot and call `requestAnimationFrame(tick)`; a throw from the engine
propagates out of `tick` before any slice update and before any
rescheduling (the mutations of `lastFrame` and of the drained click queue
have already happened).  The engine call is a parameter returning
`Except`. -/
def tick {ε : Type}
    (engineTick : Int → List Position → Option Position → Except ε Snapshot)
    (st : DriverState) (now : Int) : TickResult ε :=
  let lastFrame1 := if st.lastFrame = 0 then now else st.lastFrame
  let delta := now - lastFrame1
  let drained := st.userEvents.extractUserClicks
  let clicks := drained.1
  let hover := st.userEvents.lastHovered
  let st1 : DriverState :=
    { st with lastFrame := now, userEvents := drained.2 }
  match engineTick delta clicks hover with
  | .error e =>
    { state := st1, delta := delta, clicksSent := clicks,
      hoverSent := hover, scheduledNextFrame := false, error := some e }
  | .ok snapshot =>
    { state :=
        { st1 with
          clock := snapshot.clock_remaining_ms,
          grid := transformToGrid snapshot.grid,
          score := snapshot.score,
          triplets := st1.triplets.updateIndex snapshot.triplets_current_index,
          foundWords := snapshot.found_words },
      delta := delta, clicksSent := clicks, hoverSent := hover,
      scheduledNextFrame := true, error := none }

/-! ## Helper lemmas -/

/-- Running a sequence of operations factors through its head. -/
lemma UserEventsState.run_cons (s : UserEventsState) (op : UserEvent)
    (ops : List UserEvent) : s.run (op :: ops) = (s.apply op).run ops := rfl

/-- Recording a sequence of clicks appends them to the queue in order and
leaves the hover value untouched. -/
lemma UserEventsState.run_clicks (s : UserEventsState) (ps : List Position) :
    (s.run (ps.map UserEvent.click)).userClicks = s.userClicks ++ ps ∧
    (s.run (ps.map UserEvent.click)).lastHovered = s.lastHovered := by
  induction ps generalizing s with
  | nil => simp [UserEventsState.run]
  | cons p ps ih =>
    rcases ih (s.click p) with ⟨h1, h2⟩
    refine ⟨?_, ?_⟩
    · rw [List.map_cons, UserEventsState.run_cons]
      show ((s.click p).run (ps.map UserEvent.click)).userClicks = _
      rw [h1]
      simp [UserEventsState.click]
    · rw [List.map_cons, UserEventsState.run_cons]
      show ((s.click p).run (ps.map UserEvent.click)).lastHovered = _
      rw [h2]
      simp [UserEventsState.click]

/-- Any sequence of operations that records no hover leaves the hover
value untouched. -/
lemma UserEventsState.run_lastHovered (s : UserEventsState)
    (ops : List UserEvent) (h : ∀ p : Position, UserEvent.hover p ∉ ops) :
    (s.run ops).lastHovered = s.lastHovered := by
  induction ops generalizing s with
  | nil => rfl
  | cons op ops ih =>
    rw [UserEventsState.run_cons,
      ih _ (fun p hp => h p (List.mem_cons_of_mem _ hp))]
    cases op with
    | click p => rfl
    | extract => rfl
    | hover p => exact absurd (List.mem_cons_self _ _) (h p)

/-! ## Claim theorems: input event buffer -/

/-- C4: between two consecutive drains, the second drain returns exactly
the clicks recorded in between, in arrival order, and resets the queue to
empty; a drain on an empty queue (here: immediately after another drain)
returns the empty sequence. -/
theorem drain_returns_recorded_clicks (s : UserEventsState)
    (ps : List Position) :
    ((s.extractUserClicks.2.run (ps.map UserEvent.click)).extractUserClicks.1
        = ps ∧
      (s.extractUserClicks.2.run
          (ps.map UserEvent.click)).extractUserClicks.2.userClicks = []) ∧
    s.extractUserClicks.2.extractUserClicks.1 = [] := by
  have h := UserEventsState.run_clicks s.extractUserClicks.2 ps
  simp [UserEventsState.extractUserClicks] at h ⊢
  exact h.1

/-- C5: the hover value is last-write-wins and persistent: it is `none`
after any hover-free history from the initial state, and after
`hover p1` then `hover p2` every later read returns `p2` across any
further clicks and drains that record no third hover. -/
theorem hover_last_write_wins (p1 p2 : Position) (ops1 ops2 : List UserEvent)
    (h1 : ∀ p : Position, UserEvent.hover p ∉ ops1)
    (h2 : ∀ p : Position, UserEvent.hover p ∉ ops2) :
    (createUserEventsState.run ops1).lastHovered = none ∧
    ((((createUserEventsState.run ops1).hover p1).hover p2).run
        ops2).lastHovered = some p2 := by
  constructor
  · rw [UserEventsState.run_lastHovered _ _ h1]; rfl
  · rw [UserEventsState.run_lastHovered _ _ h2]; rfl

/-- Witness for C5: concrete clicks and drains around two hovers. -/
theorem hover_last_write_wins_witness :
    (createUserEventsState.run
        [UserEvent.click ⟨0, 0⟩, UserEvent.extract]).lastHovered = none ∧
    ((((createUserEventsState.run
            [UserEvent.click ⟨0, 0⟩, UserEvent.extract]).hover
          ⟨1, 1⟩).hover ⟨2, 2⟩).run
        [UserEvent.extract, UserEvent.click ⟨3, 3⟩]).lastHovered
      = some ⟨2, 2⟩ :=
  hover_last_write_wins ⟨1, 1⟩ ⟨2, 2⟩
    [UserEvent.click ⟨0, 0⟩, UserEvent.extract]
    [UserEvent.extract, UserEvent.click ⟨3, 3⟩]
    (by intro p h; simp at h) (by intro p h; simp at h)

/-! ## Claim theorems: triplets slice -/

/-- C1 counterexample: with a triplet sequence of length 2 and the index
moved to 2, reading `next` returns the absent value (`undefined`, here
`none`); no IndexError is raised. -/
theorem next_out_of_range_counterexample :
    ((TripletsState.mk [⟨1, 2, 3⟩, ⟨4, 5, 6⟩] 0).updateIndex 2).next
      = none := rfl

/-- C1 amended: whenever the current index is at least the sequence
length, `next` silently returns the absent value (it neither raises an
IndexError nor clamps the index). -/
theorem next_out_of_range_returns_none (s : TripletsState)
    (h : s.triplets.length ≤ s.currentIndex) : s.next = none := by
  simp [TripletsState.next, List.getElem?_eq_none h]

/-- Witness for C1 amended: length 2, index 2. -/
theorem next_out_of_range_returns_none_witness :
    (TripletsState.mk [⟨1, 2, 3⟩, ⟨4, 5, 6⟩] 2).next = none :=
  next_out_of_range_returns_none (TripletsState.mk [⟨1, 2, 3⟩, ⟨4, 5, 6⟩] 2)
    (by decide)

/-! ## Claim theorems: letter resolution -/

/-- C7: an empty-sentinel code resolves to `null` ("no letter"), and the
result does not depend on the table — no lookup is performed. -/
theorem empty_code_resolves_no_letter (ctx ctx2 : LettersTableContext)
    (is_empty_cell : Int → Bool) (c : Int) (h : is_empty_cell c = true) :
    getLetter ctx is_empty_cell c = none ∧
    getLetter ctx is_empty_cell c = getLetter ctx2 is_empty_cell c := by
  simp [getLetter, h]

/-- Witness for C7: the sentinel test `c = 0` at code 0, under two
different tables. -/
theorem empty_code_resolves_no_letter_witness :
    getLetter ⟨fun _ => some 'a', fun _ => some 1⟩ (fun c => c == 0) 0
        = none ∧
    getLetter ⟨fun _ => some 'a', fun _ => some 1⟩ (fun c => c == 0) 0
      = getLetter ⟨fun _ => none, fun _ => none⟩ (fun c => c == 0) 0 :=
  empty_code_resolves_no_letter ⟨fun _ => some 'a', fun _ => some 1⟩
    ⟨fun _ => none, fun _ => none⟩ (fun c => c == 0) 0 (by decide)

/-- C2 counterexample: code 5 is not empty and the table has no entry for
it, yet `getLetter` returns a letter with absent character and score
instead of signalling a LookupError. -/
theorem missing_entry_counterexample :
    getLetter ⟨fun _ => none, fun _ => none⟩ (fun _ => false) 5
      = some { index := 5, char := none, score := none } := rfl

/-- C2 amended: for a non-empty code with no table entry for its
character, `getLetter` returns a letter whose character is the absent
value and whose score is whatever the score accessor returns; no error is
signalled. -/
theorem missing_entry_yields_absent_fields (ctx : LettersTableContext)
    (is_empty_cell : Int → Bool) (c : Int) (h1 : is_empty_cell c = false)
    (h2 : ctx.getLetter c = none) :
    getLetter ctx is_empty_cell c
      = some { index := c, char := none, score := ctx.getScore c } := by
  simp [getLetter, h1, h2]

/-- Witness for C2 amended: an everywhere-empty table at code 5. -/
theorem missing_entry_yields_absent_fields_witness :
    getLetter ⟨fun _ => none, fun _ => none⟩ (fun _ => false) 5
      = some { index := 5, char := none, score := none } :=
  missing_entry_yields_absent_fields ⟨fun _ => none, fun _ => none⟩
    (fun _ => false) 5 rfl rfl

/-- C8: a word containing at least one empty-sentinel code fails to
resolve: `getWord` signals the error thrown at that code. -/
theorem word_with_empty_code_errors (ctx : LettersTableContext)
    (is_empty_cell : Int → Bool) (codes : List Int)
    (h : ∃ c ∈ codes, is_empty_cell c = true) :
    ∃ msg, getWord ctx is_empty_cell codes = .error msg := by
  induction codes with
  | nil => simp at h
  | cons i rest ih =>
    by_cases hi : is_empty_cell i = true
    · exact ⟨"Invalid letter index in word: " ++ toString i,
        by simp [getWord, getLetter, hi]⟩
    · rcases h with ⟨c, hc, hce⟩
      rcases List.mem_cons.mp hc with rfl | hcr
      · exact absurd hce hi
      · rcases ih ⟨c, hcr, hce⟩ with ⟨msg, hmsg⟩
        refine ⟨msg, ?_⟩
        simp [getWord, getLetter, hi, hmsg]

/-- Witness for C8: the word `[5, 0, 7]` with sentinel code 0 fails. -/
theorem word_with_empty_code_errors_witness :
    ∃ msg, getWord ⟨fun _ => some 'a', fun _ => some 1⟩ (fun c => c == 0)
      [5, 0, 7] = .error msg :=
  word_with_empty_code_errors ⟨fun _ => some 'a', fun _ => some 1⟩
    (fun c => c == 0) [5, 0, 7] ⟨0, by decide, by decide⟩

/-! ## Grid reconstruction lemmas -/

/-- Reading the grid after one insertion: the inserted record at its own
position, the previous content elsewhere. -/
lemma gridGet_insertCell (cells : Grid) (c : WasmCell) (x y : Int) :
    gridGet (insertCell cells c) x y
      = if x = c.position.x ∧ y = c.position.y then some c
        else gridGet cells x y := by
  by_cases hx : x = c.position.x
  · subst hx
    by_cases hy : y = c.position.y
    · subst hy
      simp [insertCell, gridGet]
    · simp only [insertCell, gridGet]
      simp [hy]
      cases h : cells c.position.x <;> simp [h]
  · have hxy : ¬(x = c.position.x ∧ y = c.position.y) := fun hc => hx hc.1
    simp [insertCell, gridGet, hx, hxy]

/-- Reading the grid built by folding insertions: the last inserted record
at (x, y) when one exists, the initial grid's content otherwise. -/
lemma gridGet_foldl (raw : List WasmCell) (cells : Grid) (x y : Int) :
    gridGet (raw.foldl insertCell cells) x y
      = (raw.reverse.find? fun c =>
          decide (x = c.position.x ∧ y = c.position.y)).elim
        (gridGet cells x y) some := by
  induction raw generalizing cells with
  | nil => simp
  | cons c rest ih =>
    rw [List.foldl_cons, ih, List.reverse_cons, List.find?_append]
    cases h : rest.reverse.find? fun c =>
        decide (x = c.position.x ∧ y = c.position.y) with
    | some d => simp [h]
    | none =>
      rw [gridGet_insertCell]
      by_cases hc : x = c.position.x ∧ y = c.position.y <;>
        simp [h, List.find?, hc]

/-! ## Claim theorems: grid reconstruction -/

/-- C6: the reconstructed grid holds at (x, y) exactly the last record of
the input list whose position is (x, y) — later duplicates silently
overwrite earlier ones — and consequently every present entry's position
equals its own address. -/
theorem grid_last_write_wins (raw : List WasmCell) (x y : Int) :
    gridGet (transformToGrid raw) x y
        = (raw.reverse.find? fun c =>
            decide (x = c.position.x ∧ y = c.position.y)) ∧
    ∀ c, gridGet (transformToGrid raw) x y = some c →
      c.position = (⟨x, y⟩ : Position) := by
  have h := gridGet_foldl raw (fun _ => none) x y
  have hbase : gridGet (fun _ => none) x y = none := rfl
  rw [transformToGrid] at *
  constructor
  · rw [h, hbase]
    cases hf : raw.reverse.find? fun c =>
        decide (x = c.position.x ∧ y = c.position.y) <;> simp [hf]
  · intro c hc
    rw [h, hbase] at hc
    cases hf : raw.reverse.find? fun c =>
        decide (x = c.position.x ∧ y = c.position.y) with
    | none => rw [hf] at hc; simp at hc
    | some d =>
      rw [hf] at hc
      simp only [Option.elim] at hc
      cases hc
      have hp := List.find?_some hf
      rcases of_decide_eq_true hp with ⟨hx, hy⟩
      calc c.position = ⟨c.position.x, c.position.y⟩ := rfl
        _ = (⟨x, y⟩ : Position) := by rw [← hx, ← hy]

/-- Witness for C6: two records share address (0, 1); the later one wins
and its position matches its address. -/
theorem grid_last_write_wins_witness :
    gridGet (transformToGrid
        [⟨⟨0, 0⟩, 1, .none⟩, ⟨⟨0, 1⟩, 2, .path⟩, ⟨⟨0, 1⟩, 3, .blocked⟩])
      0 1 = some ⟨⟨0, 1⟩, 3, .blocked⟩ ∧
    (⟨⟨0, 1⟩, 3, .blocked⟩ : WasmCell).position = (⟨0, 1⟩ : Position) := by
  have h := grid_last_write_wins
    [⟨⟨0, 0⟩, 1, .none⟩, ⟨⟨0, 1⟩, 2, .path⟩, ⟨⟨0, 1⟩, 3, .blocked⟩] 0 1
  have hval : gridGet (transformToGrid
      [⟨⟨0, 0⟩, 1, .none⟩, ⟨⟨0, 1⟩, 2, .path⟩, ⟨⟨0, 1⟩, 3, .blocked⟩])
      0 1 = some ⟨⟨0, 1⟩, 3, .blocked⟩ := by rw [h.1]; rfl
  exact ⟨hval, h.2 _ hval⟩

/-! ## Frame driver helpers -/

/-- The delta reported to the engine and the updated `lastFrame` do not
depend on the engine's outcome: delta is `now` minus the reference time
(`now` itself on a first frame, when `lastFrame` still holds the sentinel
0), and `lastFrame` becomes `now`. -/
lemma tick_delta_lastFrame {ε : Type}
    (engineTick : Int → List Position → Option Position → Except ε Snapshot)
    (st : DriverState) (now : Int) :
    (tick engineTick st now).delta
        = now - (if st.lastFrame = 0 then now else st.lastFrame) ∧
    (tick engineTick st now).state.lastFrame = now := by
  refine ⟨?_, ?_⟩ <;> · simp only [tick]; split <;> rfl

/-- A concrete engine stub that always succeeds with a fixed snapshot. -/
def engineOk : Int → List Position → Option Position → Except Unit Snapshot :=
  fun _ _ _ =>
    .ok { clock_remaining_ms := 0, grid := [], found_words := [],
          score := 0, triplets_current_index := 0 }

/-- A concrete engine stub whose step always throws. -/
def engineFail :
    Int → List Position → Option Position → Except Unit Snapshot :=
  fun _ _ _ => .error ()

/-- A concrete fresh driver state, as `createGameState` builds it before
the first frame: `lastFrame = 0`, empty buffers, initial slices. -/
def st0 : DriverState :=
  { lastFrame := 0, userEvents := createUserEventsState, clock := 20000,
    grid := fun _ => none, score := 0,
    triplets := { triplets := [⟨1, 2, 3⟩, ⟨4, 5, 6⟩], currentIndex := 0 },
    foundWords := [] }

/-! ## Claim theorems: frame driver -/

/-- C3 counterexample: when the first invocation's argument is 0, the
second invocation does not report `delta = nowMs - lastFrameMs` (it
reports 0, because the sentinel made it a first frame again). -/
theorem delta_after_zero_start_counterexample :
    (tick engineOk (tick engineOk st0 0).state 16).delta
      ≠ 16 - (tick engineOk st0 0).state.lastFrame := by
  have h1 : (tick engineOk st0 0).state.lastFrame = 0 := rfl
  have h2 : (tick engineOk (tick engineOk st0 0).state 16).delta = 0 := rfl
  rw [h1, h2]
  decide

/-- C3 amended: starting from a fresh state and a first invocation whose
argument is nonzero, the first invocation reports delta 0 and records its
argument as the reference time, and the following invocation reports
`delta = nowMs - lastFrameMs` and then sets `lastFrameMs = nowMs`. -/
theorem frame_delta_spec {ε : Type}
    (engineTick : Int → List Position → Option Position → Except ε Snapshot)
    (st : DriverState) (t1 t2 : Int) (h0 : st.lastFrame = 0) (h1 : t1 ≠ 0) :
    (tick engineTick st t1).delta = 0 ∧
    (tick engineTick st t1).state.lastFrame = t1 ∧
    (tick engineTick (tick engineTick st t1).state t2).delta = t2 - t1 ∧
    (tick engineTick (tick engineTick st t1).state t2).state.lastFrame
      = t2 := by
  rcases tick_delta_lastFrame engineTick st t1 with ⟨d1, l1⟩
  rcases tick_delta_lastFrame engineTick (tick engineTick st t1).state t2
    with ⟨d2, l2⟩
  rw [h0, if_pos rfl, sub_self] at d1
  rw [l1, if_neg h1] at d2
  exact ⟨d1, l1, d2, l2⟩

/-- Witness for C3 amended: `advance(1000)` then `advance(1016)` yields
deltas 0 and 16 and leaves `lastFrameMs = 1016`. -/
theorem frame_delta_spec_witness :
    (tick engineOk st0 1000).delta = 0 ∧
    (tick engineOk st0 1000).state.lastFrame = 1000 ∧
    (tick engineOk (tick engineOk st0 1000).state 1016).delta
      = 1016 - 1000 ∧
    (tick engineOk (tick engineOk st0 1000).state 1016).state.lastFrame
      = 1016 :=
  frame_delta_spec engineOk st0 1000 1016 rfl (by decide)

/-- C10: with a first invocation at time 0 the reference time keeps the
sentinel value 0, the next invocation at any t > 0 is again treated as a
first frame (delta 0, reference becomes t), and only the third invocation
reports a normal delta. -/
theorem zero_start_sentinel_collision {ε : Type}
    (engineTick : Int → List Position → Option Position → Except ε Snapshot)
    (st : DriverState) (t u : Int) (h0 : st.lastFrame = 0) (ht : 0 < t) :
    (tick engineTick st 0).delta = 0 ∧
    (tick engineTick st 0).state.lastFrame = 0 ∧
    (tick engineTick (tick engineTick st 0).state t).delta = 0 ∧
    (tick engineTick (tick engineTick st 0).state t).state.lastFrame = t ∧
    (tick engineTick
        (tick engineTick (tick engineTick st 0).state t).state u).delta
      = u - t := by
  have htne : t ≠ 0 := ne_of_gt ht
  rcases tick_delta_lastFrame engineTick st 0 with ⟨d1, l1⟩
  rcases tick_delta_lastFrame engineTick (tick engineTick st 0).state t
    with ⟨d2, l2⟩
  rcases tick_delta_lastFrame engineTick
    (tick engineTick (tick engineTick st 0).state t).state u with ⟨d3, l3⟩
  rw [h0, if_pos rfl, sub_self] at d1
  rw [l1, if_pos rfl, sub_self] at d2
  rw [l2, if_neg htne] at d3
  exact ⟨d1, l1, d2, l2, d3⟩

/-- Witness for C10: invocations at 0, 16, 30 yield deltas 0, 0, 14. -/
theorem zero_start_sentinel_collision_witness :
    (tick engineOk st0 0).delta = 0 ∧
    (tick engineOk st0 0).state.lastFrame = 0 ∧
    (tick engineOk (tick engineOk st0 0).state 16).delta = 0 ∧
    (tick engineOk (tick engineOk st0 0).state 16).state.lastFrame = 16 ∧
    (tick engineOk
        (tick engineOk (tick engineOk st0 0).state 16).state 30).delta
      = 30 - 16 :=
  zero_start_sentinel_collision engineOk st0 16 30 rfl (by decide)

/-- C9: when the engine's step call throws, `tick` propagates that error
to its caller, does not reach `requestAnimationFrame`, and performs none
of the five slice updates. -/
theorem engine_error_is_fatal {ε : Type}
    (engineTick : Int → List Position → Option Position → Except ε Snapshot)
    (st : DriverState) (now : Int) (e : ε)
    (h : engineTick (now - (if st.lastFrame = 0 then now else st.lastFrame))
        st.userEvents.userClicks st.userEvents.lastHovered
      = .error e) :
    (tick engineTick st now).error = some e ∧
    (tick engineTick st now).scheduledNextFrame = false ∧
    (tick engineTick st now).state.clock = st.clock ∧
    (tick engineTick st now).state.grid = st.grid ∧
    (tick engineTick st now).state.score = st.score ∧
    (tick engineTick st now).state.triplets = st.triplets ∧
    (tick engineTick st now).state.foundWords = st.foundWords := by
  simp [tick, UserEventsState.extractUserClicks, h]

/-- Witness for C9: a step that always throws, at a fresh state. -/
theorem engine_error_is_fatal_witness :
    (tick engineFail st0 5).error = some () ∧
    (tick engineFail st0 5).scheduledNextFrame = false ∧
    (tick engineFail st0 5).state.clock = st0.clock ∧
    (tick engineFail st0 5).state.grid = st0.grid ∧
    (tick engineFail st0 5).state.score = st0.score ∧
    (tick engineFail st0 5).state.triplets = st0.triplets ∧
    (tick engineFail st0 5).state.foundWords = st0.foundWords :=
  engine_error_is_fatal engineFail st0 5 () rfl

end Golden
